import Mathlib

/-!
Shallow embedding of the framing/codec layer in `src/core/messages.rs`
(IBKR-API-Rust): `make_message`, `read_msg`, `read_fields`, `make_field`,
and the `IncomingMessageIds` / `OutgoingMessageIds` code tables.

Modelling conventions:
* Rust byte slices / `Vec<u8>` are `List Nat` with entries < 256; a Rust
  `String` is represented by its UTF-8 byte content, also a `List Nat`.
* A Rust function that can panic (`unwrap`, out-of-bounds `remove`) is
  embedded with result type `PanicOr`: `.panicked` models the panic,
  `.ok v` models a normal return of `v`.
* Machine integers are `Nat` / `Int` with the wrapping casts written out:
  `usize::len as i32` keeps the low 32 bits, and `i32 as usize`
  sign-extends to 64 bits (`i32AsUsize`).
-/

set_option maxHeartbeats 1000000

/-- Result of running a Rust function that may panic: either the panic
(`unwrap` failure, index out of bounds) or the returned value. -/
inductive PanicOr (α : Type) where
  | panicked : PanicOr α
  | ok : α → PanicOr α
deriving DecidableEq, Repr

/-- True when the computation returned normally. -/
def PanicOr.isOk {α : Type} : PanicOr α → Bool
  | .panicked => false
  | .ok _ => true

/-- The four bytes of `i32::to_be_bytes(n as i32)` for a `usize` length `n`:
big-endian bytes of the low 32 bits of `n`. -/
def beBytes32 (n : Nat) : List Nat :=
  [n / 16777216 % 256, n / 65536 % 256, n / 256 % 256, n % 256]

/-- The numeric value of four big-endian bytes (`u32` reading). -/
def be4 (b0 b1 b2 b3 : Nat) : Nat :=
  b0 * 16777216 + b1 * 65536 + b2 * 256 + b3

/-- `i32::from_be_bytes(..) as usize` applied to the `u32` value `u`
(for `u < 2^32`): values at or above `2^31` are negative as `i32` and
sign-extend to 64-bit `usize`. -/
def i32AsUsize (u : Nat) : Nat :=
  if u < 2147483648 then u else u + (18446744073709551616 - 4294967296)

/-- State machine for UTF-8 well-formedness: the first argument lists the
inclusive `(lo, hi)` byte ranges still expected for the current multi-byte
sequence (empty at a character boundary). At a boundary, a lead byte
installs the ranges of its continuation bytes, with the restricted ranges
that rule out overlong forms, surrogates, and code points above U+10FFFF. -/
def utf8ValidAux : List (Nat × Nat) → List Nat → Bool
  | [], [] => true
  | _ :: _, [] => false
  | [], b :: rest =>
    if b < 128 then utf8ValidAux [] rest
    else if b < 194 then false
    else if b < 224 then utf8ValidAux [(128, 191)] rest
    else if b = 224 then utf8ValidAux [(160, 191), (128, 191)] rest
    else if b = 237 then utf8ValidAux [(128, 159), (128, 191)] rest
    else if b < 240 then utf8ValidAux [(128, 191), (128, 191)] rest
    else if b = 240 then utf8ValidAux [(144, 191), (128, 191), (128, 191)] rest
    else if b < 244 then utf8ValidAux [(128, 191), (128, 191), (128, 191)] rest
    else if b = 244 then utf8ValidAux [(128, 143), (128, 191), (128, 191)] rest
    else false
  | (lo, hi) :: ps, b :: rest =>
    if lo ≤ b ∧ b ≤ hi then utf8ValidAux ps rest else false

/-- UTF-8 well-formedness of a byte list, exactly the validity predicate of
Rust's `String::from_utf8`. -/
def utf8Valid (l : List Nat) : Bool :=
  utf8ValidAux [] l

/-- `read_msg(buf)` from `messages.rs`. Returns the tuple
`(size, text, remaining bytes)`:
* fewer than 4 bytes: `(0, "", buf)` (the "buffer too small" early return);
* otherwise `size` is the first 4 bytes as `i32` cast to `usize`; if
  `buf.len() - 4 >= size` the payload slice is decoded with
  `String::from_utf8(..).unwrap()` — a panic when the bytes are not valid
  UTF-8 — and `(size, text, buf[4+size..])` is returned;
* otherwise `(size, "", buf)`. -/
def read_msg (buf : List Nat) : PanicOr (Nat × List Nat × List Nat) :=
  match buf with
  | b0 :: b1 :: b2 :: b3 :: rest =>
    let size := i32AsUsize (be4 b0 b1 b2 b3)
    if size ≤ rest.length then
      if utf8Valid (rest.take size) then
        .ok (size, rest.take size, rest.drop size)
      else
        .panicked
    else
      .ok (size, [], b0 :: b1 :: b2 :: b3 :: rest)
  | _ => .ok (0, [], buf)

/-- `make_message(msg)` from `messages.rs`: writes
`i32::to_be_bytes(msg.len() as i32)` followed by
`msg.as_ascii_str().unwrap().as_bytes()` — the `unwrap` panics when any
byte is outside 7-bit ASCII — then calls `read_msg` on a clone (whose
possible panic propagates) and returns the clone. -/
def make_message (msg : List Nat) : PanicOr (List Nat) :=
  if msg.all (fun b => b < 128) then
    let tmp := beBytes32 msg.length ++ msg
    match read_msg tmp with
    | .panicked => .panicked
    | .ok _ => .ok tmp
  else
    .panicked

/-- `str::split('\u{0}')` on the byte representation: splits at every NUL
byte, keeping empty pieces; the empty string yields `[[]]`. -/
def splitNul : List Nat → List (List Nat)
  | [] => [[]]
  | b :: rest =>
    if b = 0 then
      [] :: splitNul rest
    else
      match splitNul rest with
      | [] => [[b]]
      | f :: fs => (b :: f) :: fs

/-- `read_fields(buf)` from `messages.rs`: split the payload on NUL and
`fields.remove(fields.len() - 1)` — removing the last split piece, which
panics when the split result is empty (it never is). -/
def read_fields (buf : List Nat) : PanicOr (List (List Nat)) :=
  let fields := splitNul buf
  if fields = [] then .panicked
  else .ok fields.dropLast

/-- Decimal digit bytes of `n`, most significant first, by fueled division;
`fuel ≥ n ≥ 1` guarantees enough steps. -/
def natDecAux : Nat → Nat → List Nat
  | _, 0 => []
  | 0, _ => []
  | fuel + 1, n => natDecAux fuel (n / 10) ++ [48 + n % 10]

/-- Decimal text (ASCII bytes) of a natural number, as Rust `Display`. -/
def natDec (n : Nat) : List Nat :=
  if n = 0 then [48] else natDecAux n n

/-- Decimal text (ASCII bytes) of an integer, as Rust `Display` for the
integer types: optional minus sign, then digits. -/
def intDec (i : Int) : List Nat :=
  if i < 0 then 45 :: natDec i.natAbs else natDec i.natAbs

/-- The runtime types probed by `make_field`'s `downcast_ref` chain. Each
`&dyn Any` argument has exactly one runtime type, so the chain is a
disjoint case split, modelled as one variant per probed type plus
`otherVal` for every other type. `f64Val` carries the `Display` text of
the float, since binary floating-point formatting itself is outside this
embedding; no variant for `i64` exists in the chain, so an `i64` argument
is represented by `i64Val` and reaches the fallback. -/
inductive FieldVal where
  | boolVal : Bool → FieldVal
  | stringVal : List Nat → FieldVal
  | strVal : List Nat → FieldVal
  | f64Val : List Nat → FieldVal
  | i32Val : Int → FieldVal
  | i64Val : Int → FieldVal
  | otherVal : FieldVal
deriving DecidableEq, Repr

/-- `make_field(val)` from `messages.rs`: `downcast_ref` chain over
`bool`, `String`, `&str`, `f64`, `i32`, formatting `format!("{}\0", v)`
(bool as `v as i32`); any other runtime type — including `i64`, which has
no branch — yields `"".to_string()`. -/
def make_field : FieldVal → List Nat
  | .boolVal b => intDec (if b then 1 else 0) ++ [0]
  | .stringVal s => s ++ [0]
  | .strVal s => s ++ [0]
  | .f64Val text => text ++ [0]
  | .i32Val n => intDec n ++ [0]
  | .i64Val _ => []
  | .otherVal => []
/-- The `IncomingMessageIds` enum of `messages.rs`, one constructor per variant in declaration order. -/
inductive IncomingMessageIds where
  | TickPrice : IncomingMessageIds
  | TickSize : IncomingMessageIds
  | OrderStatus : IncomingMessageIds
  | ErrMsg : IncomingMessageIds
  | OpenOrder : IncomingMessageIds
  | AcctValue : IncomingMessageIds
  | PortfolioValue : IncomingMessageIds
  | AcctUpdateTime : IncomingMessageIds
  | NextValidId : IncomingMessageIds
  | ContractData : IncomingMessageIds
  | ExecutionData : IncomingMessageIds
  | MarketDepth : IncomingMessageIds
  | MarketDepthL2 : IncomingMessageIds
  | NewsBulletins : IncomingMessageIds
  | ManagedAccts : IncomingMessageIds
  | ReceiveFa : IncomingMessageIds
  | HistoricalData : IncomingMessageIds
  | BondContractData : IncomingMessageIds
  | ScannerParameters : IncomingMessageIds
  | ScannerData : IncomingMessageIds
  | TickOptionComputation : IncomingMessageIds
  | TickGeneric : IncomingMessageIds
  | TickString : IncomingMessageIds
  | TickEfp : IncomingMessageIds
  | CurrentTime : IncomingMessageIds
  | RealTimeBars : IncomingMessageIds
  | FundamentalData : IncomingMessageIds
  | ContractDataEnd : IncomingMessageIds
  | OpenOrderEnd : IncomingMessageIds
  | AcctDownloadEnd : IncomingMessageIds
  | ExecutionDataEnd : IncomingMessageIds
  | DeltaNeutralValidation : IncomingMessageIds
  | TickSnapshotEnd : IncomingMessageIds
  | MarketDataType : IncomingMessageIds
  | CommissionReport : IncomingMessageIds
  | PositionData : IncomingMessageIds
  | PositionEnd : IncomingMessageIds
  | AccountSummary : IncomingMessageIds
  | AccountSummaryEnd : IncomingMessageIds
  | VerifyMessageApi : IncomingMessageIds
  | VerifyCompleted : IncomingMessageIds
  | DisplayGroupList : IncomingMessageIds
  | DisplayGroupUpdated : IncomingMessageIds
  | VerifyAndAuthMessageApi : IncomingMessageIds
  | VerifyAndAuthCompleted : IncomingMessageIds
  | PositionMulti : IncomingMessageIds
  | PositionMultiEnd : IncomingMessageIds
  | AccountUpdateMulti : IncomingMessageIds
  | AccountUpdateMultiEnd : IncomingMessageIds
  | SecurityDefinitionOptionParameter : IncomingMessageIds
  | SecurityDefinitionOptionParameterEnd : IncomingMessageIds
  | SoftDollarTiers : IncomingMessageIds
  | FamilyCodes : IncomingMessageIds
  | SymbolSamples : IncomingMessageIds
  | MktDepthExchanges : IncomingMessageIds
  | TickReqParams : IncomingMessageIds
  | SmartComponents : IncomingMessageIds
  | NewsArticle : IncomingMessageIds
  | TickNews : IncomingMessageIds
  | NewsProviders : IncomingMessageIds
  | HistoricalNews : IncomingMessageIds
  | HistoricalNewsEnd : IncomingMessageIds
  | HeadTimestamp : IncomingMessageIds
  | HistogramData : IncomingMessageIds
  | HistoricalDataUpdate : IncomingMessageIds
  | RerouteMktDataReq : IncomingMessageIds
  | RerouteMktDepthReq : IncomingMessageIds
  | MarketRule : IncomingMessageIds
  | Pnl : IncomingMessageIds
  | PnlSingle : IncomingMessageIds
  | HistoricalTicks : IncomingMessageIds
  | HistoricalTicksBidAsk : IncomingMessageIds
  | HistoricalTicksLast : IncomingMessageIds
  | TickByTick : IncomingMessageIds
  | OrderBound : IncomingMessageIds
  | CompletedOrder : IncomingMessageIds
  | CompletedOrdersEnd : IncomingMessageIds
deriving DecidableEq, Fintype, Repr

/-- The declared discriminant (`repr(i32)` value) of each `IncomingMessageIds` variant. -/
def incomingCode : IncomingMessageIds → Int
  | .TickPrice => 1
  | .TickSize => 2
  | .OrderStatus => 3
  | .ErrMsg => 4
  | .OpenOrder => 5
  | .AcctValue => 6
  | .PortfolioValue => 7
  | .AcctUpdateTime => 8
  | .NextValidId => 9
  | .ContractData => 10
  | .ExecutionData => 11
  | .MarketDepth => 12
  | .MarketDepthL2 => 13
  | .NewsBulletins => 14
  | .ManagedAccts => 15
  | .ReceiveFa => 16
  | .HistoricalData => 17
  | .BondContractData => 18
  | .ScannerParameters => 19
  | .ScannerData => 20
  | .TickOptionComputation => 21
  | .TickGeneric => 45
  | .TickString => 46
  | .TickEfp => 47
  | .CurrentTime => 49
  | .RealTimeBars => 50
  | .FundamentalData => 51
  | .ContractDataEnd => 52
  | .OpenOrderEnd => 53
  | .AcctDownloadEnd => 54
  | .ExecutionDataEnd => 55
  | .DeltaNeutralValidation => 56
  | .TickSnapshotEnd => 57
  | .MarketDataType => 58
  | .CommissionReport => 59
  | .PositionData => 61
  | .PositionEnd => 62
  | .AccountSummary => 63
  | .AccountSummaryEnd => 64
  | .VerifyMessageApi => 65
  | .VerifyCompleted => 66
  | .DisplayGroupList => 67
  | .DisplayGroupUpdated => 68
  | .VerifyAndAuthMessageApi => 69
  | .VerifyAndAuthCompleted => 70
  | .PositionMulti => 71
  | .PositionMultiEnd => 72
  | .AccountUpdateMulti => 73
  | .AccountUpdateMultiEnd => 74
  | .SecurityDefinitionOptionParameter => 75
  | .SecurityDefinitionOptionParameterEnd => 76
  | .SoftDollarTiers => 77
  | .FamilyCodes => 78
  | .SymbolSamples => 79
  | .MktDepthExchanges => 80
  | .TickReqParams => 81
  | .SmartComponents => 82
  | .NewsArticle => 83
  | .TickNews => 84
  | .NewsProviders => 85
  | .HistoricalNews => 86
  | .HistoricalNewsEnd => 87
  | .HeadTimestamp => 88
  | .HistogramData => 89
  | .HistoricalDataUpdate => 90
  | .RerouteMktDataReq => 91
  | .RerouteMktDepthReq => 92
  | .MarketRule => 93
  | .Pnl => 94
  | .PnlSingle => 95
  | .HistoricalTicks => 96
  | .HistoricalTicksBidAsk => 97
  | .HistoricalTicksLast => 98
  | .TickByTick => 99
  | .OrderBound => 100
  | .CompletedOrder => 101
  | .CompletedOrdersEnd => 102

/-- All `IncomingMessageIds` variants in declaration order. -/
def incomingVariants : List IncomingMessageIds :=
  [.TickPrice, .TickSize, .OrderStatus, .ErrMsg, .OpenOrder, .AcctValue, .PortfolioValue, .AcctUpdateTime, .NextValidId, .ContractData, .ExecutionData, .MarketDepth, .MarketDepthL2, .NewsBulletins, .ManagedAccts, .ReceiveFa, .HistoricalData, .BondContractData, .ScannerParameters, .ScannerData, .TickOptionComputation, .TickGeneric, .TickString, .TickEfp, .CurrentTime, .RealTimeBars, .FundamentalData, .ContractDataEnd, .OpenOrderEnd, .AcctDownloadEnd, .ExecutionDataEnd, .DeltaNeutralValidation, .TickSnapshotEnd, .MarketDataType, .CommissionReport, .PositionData, .PositionEnd, .AccountSummary, .AccountSummaryEnd, .VerifyMessageApi, .VerifyCompleted, .DisplayGroupList, .DisplayGroupUpdated, .VerifyAndAuthMessageApi, .VerifyAndAuthCompleted, .PositionMulti, .PositionMultiEnd, .AccountUpdateMulti, .AccountUpdateMultiEnd, .SecurityDefinitionOptionParameter, .SecurityDefinitionOptionParameterEnd, .SoftDollarTiers, .FamilyCodes, .SymbolSamples, .MktDepthExchanges, .TickReqParams, .SmartComponents, .NewsArticle, .TickNews, .NewsProviders, .HistoricalNews, .HistoricalNewsEnd, .HeadTimestamp, .HistogramData, .HistoricalDataUpdate, .RerouteMktDataReq, .RerouteMktDepthReq, .MarketRule, .Pnl, .PnlSingle, .HistoricalTicks, .HistoricalTicksBidAsk, .HistoricalTicksLast, .TickByTick, .OrderBound, .CompletedOrder, .CompletedOrdersEnd]

/-- `FromPrimitive::from_i32` as generated by the derive on `IncomingMessageIds`: the
code is compared with each variant discriminant in declaration order and the
first match (`Some`) or `None` is returned. -/
def incomingFromI32 (c : Int) : Option IncomingMessageIds :=
  incomingVariants.find? (fun k => incomingCode k == c)

/-- The `OutgoingMessageIds` enum of `messages.rs`, one constructor per variant in declaration order. -/
inductive OutgoingMessageIds where
  | ReqMktData : OutgoingMessageIds
  | CancelMktData : OutgoingMessageIds
  | PlaceOrder : OutgoingMessageIds
  | CancelOrder : OutgoingMessageIds
  | ReqOpenOrders : OutgoingMessageIds
  | ReqAcctData : OutgoingMessageIds
  | ReqExecutions : OutgoingMessageIds
  | ReqIds : OutgoingMessageIds
  | ReqContractData : OutgoingMessageIds
  | ReqMktDepth : OutgoingMessageIds
  | CancelMktDepth : OutgoingMessageIds
  | ReqNewsBulletins : OutgoingMessageIds
  | CancelNewsBulletins : OutgoingMessageIds
  | SetServerLoglevel : OutgoingMessageIds
  | ReqAutoOpenOrders : OutgoingMessageIds
  | ReqAllOpenOrders : OutgoingMessageIds
  | ReqManagedAccts : OutgoingMessageIds
  | ReqFa : OutgoingMessageIds
  | ReplaceFa : OutgoingMessageIds
  | ReqHistoricalData : OutgoingMessageIds
  | ExerciseOptions : OutgoingMessageIds
  | ReqScannerSubscription : OutgoingMessageIds
  | CancelScannerSubscription : OutgoingMessageIds
  | ReqScannerParameters : OutgoingMessageIds
  | CancelHistoricalData : OutgoingMessageIds
  | ReqCurrentTime : OutgoingMessageIds
  | ReqRealTimeBars : OutgoingMessageIds
  | CancelRealTimeBars : OutgoingMessageIds
  | ReqFundamentalData : OutgoingMessageIds
  | CancelFundamentalData : OutgoingMessageIds
  | ReqCalcImpliedVolat : OutgoingMessageIds
  | ReqCalcOptionPrice : OutgoingMessageIds
  | CancelCalcImpliedVolat : OutgoingMessageIds
  | CancelCalcOptionPrice : OutgoingMessageIds
  | ReqGlobalCancel : OutgoingMessageIds
  | ReqMarketDataType : OutgoingMessageIds
  | ReqPositions : OutgoingMessageIds
  | ReqAccountSummary : OutgoingMessageIds
  | CancelAccountSummary : OutgoingMessageIds
  | CancelPositions : OutgoingMessageIds
  | VerifyRequest : OutgoingMessageIds
  | VerifyMessage : OutgoingMessageIds
  | QueryDisplayGroups : OutgoingMessageIds
  | SubscribeToGroupEvents : OutgoingMessageIds
  | UpdateDisplayGroup : OutgoingMessageIds
  | UnsubscribeFromGroupEvents : OutgoingMessageIds
  | StartApi : OutgoingMessageIds
  | VerifyAndAuthRequest : OutgoingMessageIds
  | VerifyAndAuthMessage : OutgoingMessageIds
  | ReqPositionsMulti : OutgoingMessageIds
  | CancelPositionsMulti : OutgoingMessageIds
  | ReqAccountUpdatesMulti : OutgoingMessageIds
  | CancelAccountUpdatesMulti : OutgoingMessageIds
  | ReqSecDefOptParams : OutgoingMessageIds
  | ReqSoftDollarTiers : OutgoingMessageIds
  | ReqFamilyCodes : OutgoingMessageIds
  | ReqMatchingSymbols : OutgoingMessageIds
  | ReqMktDepthExchanges : OutgoingMessageIds
  | ReqSmartComponents : OutgoingMessageIds
  | ReqNewsArticle : OutgoingMessageIds
  | ReqNewsProviders : OutgoingMessageIds
  | ReqHistoricalNews : OutgoingMessageIds
  | ReqHeadTimestamp : OutgoingMessageIds
  | ReqHistogramData : OutgoingMessageIds
  | CancelHistogramData : OutgoingMessageIds
  | CancelHeadTimestamp : OutgoingMessageIds
  | ReqMarketRule : OutgoingMessageIds
  | ReqPnl : OutgoingMessageIds
  | CancelPnl : OutgoingMessageIds
  | ReqPnlSingle : OutgoingMessageIds
  | CancelPnlSingle : OutgoingMessageIds
  | ReqHistoricalTicks : OutgoingMessageIds
  | ReqTickByTickData : OutgoingMessageIds
  | CancelTickByTickData : OutgoingMessageIds
  | ReqCompletedOrders : OutgoingMessageIds
deriving DecidableEq, Fintype, Repr

/-- The declared discriminant (`repr(i32)` value) of each `OutgoingMessageIds` variant. -/
def outgoingCode : OutgoingMessageIds → Int
  | .ReqMktData => 1
  | .CancelMktData => 2
  | .PlaceOrder => 3
  | .CancelOrder => 4
  | .ReqOpenOrders => 5
  | .ReqAcctData => 6
  | .ReqExecutions => 7
  | .ReqIds => 8
  | .ReqContractData => 9
  | .ReqMktDepth => 10
  | .CancelMktDepth => 11
  | .ReqNewsBulletins => 12
  | .CancelNewsBulletins => 13
  | .SetServerLoglevel => 14
  | .ReqAutoOpenOrders => 15
  | .ReqAllOpenOrders => 16
  | .ReqManagedAccts => 17
  | .ReqFa => 18
  | .ReplaceFa => 19
  | .ReqHistoricalData => 20
  | .ExerciseOptions => 21
  | .ReqScannerSubscription => 22
  | .CancelScannerSubscription => 23
  | .ReqScannerParameters => 24
  | .CancelHistoricalData => 25
  | .ReqCurrentTime => 49
  | .ReqRealTimeBars => 50
  | .CancelRealTimeBars => 51
  | .ReqFundamentalData => 52
  | .CancelFundamentalData => 53
  | .ReqCalcImpliedVolat => 54
  | .ReqCalcOptionPrice => 55
  | .CancelCalcImpliedVolat => 56
  | .CancelCalcOptionPrice => 57
  | .ReqGlobalCancel => 58
  | .ReqMarketDataType => 59
  | .ReqPositions => 61
  | .ReqAccountSummary => 62
  | .CancelAccountSummary => 63
  | .CancelPositions => 64
  | .VerifyRequest => 65
  | .VerifyMessage => 66
  | .QueryDisplayGroups => 67
  | .SubscribeToGroupEvents => 68
  | .UpdateDisplayGroup => 69
  | .UnsubscribeFromGroupEvents => 70
  | .StartApi => 71
  | .VerifyAndAuthRequest => 72
  | .VerifyAndAuthMessage => 73
  | .ReqPositionsMulti => 74
  | .CancelPositionsMulti => 75
  | .ReqAccountUpdatesMulti => 76
  | .CancelAccountUpdatesMulti => 77
  | .ReqSecDefOptParams => 78
  | .ReqSoftDollarTiers => 79
  | .ReqFamilyCodes => 80
  | .ReqMatchingSymbols => 81
  | .ReqMktDepthExchanges => 82
  | .ReqSmartComponents => 83
  | .ReqNewsArticle => 84
  | .ReqNewsProviders => 85
  | .ReqHistoricalNews => 86
  | .ReqHeadTimestamp => 87
  | .ReqHistogramData => 88
  | .CancelHistogramData => 89
  | .CancelHeadTimestamp => 90
  | .ReqMarketRule => 91
  | .ReqPnl => 92
  | .CancelPnl => 93
  | .ReqPnlSingle => 94
  | .CancelPnlSingle => 95
  | .ReqHistoricalTicks => 96
  | .ReqTickByTickData => 97
  | .CancelTickByTickData => 98
  | .ReqCompletedOrders => 99

/-- All `OutgoingMessageIds` variants in declaration order. -/
def outgoingVariants : List OutgoingMessageIds :=
  [.ReqMktData, .CancelMktData, .PlaceOrder, .CancelOrder, .ReqOpenOrders, .ReqAcctData, .ReqExecutions, .ReqIds, .ReqContractData, .ReqMktDepth, .CancelMktDepth, .ReqNewsBulletins, .CancelNewsBulletins, .SetServerLoglevel, .ReqAutoOpenOrders, .ReqAllOpenOrders, .ReqManagedAccts, .ReqFa, .ReplaceFa, .ReqHistoricalData, .ExerciseOptions, .ReqScannerSubscription, .CancelScannerSubscription, .ReqScannerParameters, .CancelHistoricalData, .ReqCurrentTime, .ReqRealTimeBars, .CancelRealTimeBars, .ReqFundamentalData, .CancelFundamentalData, .ReqCalcImpliedVolat, .ReqCalcOptionPrice, .CancelCalcImpliedVolat, .CancelCalcOptionPrice, .ReqGlobalCancel, .ReqMarketDataType, .ReqPositions, .ReqAccountSummary, .CancelAccountSummary, .CancelPositions, .VerifyRequest, .VerifyMessage, .QueryDisplayGroups, .SubscribeToGroupEvents, .UpdateDisplayGroup, .UnsubscribeFromGroupEvents, .StartApi, .VerifyAndAuthRequest, .VerifyAndAuthMessage, .ReqPositionsMulti, .CancelPositionsMulti, .ReqAccountUpdatesMulti, .CancelAccountUpdatesMulti, .ReqSecDefOptParams, .ReqSoftDollarTiers, .ReqFamilyCodes, .ReqMatchingSymbols, .ReqMktDepthExchanges, .ReqSmartComponents, .ReqNewsArticle, .ReqNewsProviders, .ReqHistoricalNews, .ReqHeadTimestamp, .ReqHistogramData, .CancelHistogramData, .CancelHeadTimestamp, .ReqMarketRule, .ReqPnl, .CancelPnl, .ReqPnlSingle, .CancelPnlSingle, .ReqHistoricalTicks, .ReqTickByTickData, .CancelTickByTickData, .ReqCompletedOrders]

/-- `FromPrimitive::from_i32` as generated by the derive on `OutgoingMessageIds`: the
code is compared with each variant discriminant in declaration order and the
first match (`Some`) or `None` is returned. -/
def outgoingFromI32 (c : Int) : Option OutgoingMessageIds :=
  outgoingVariants.find? (fun k => outgoingCode k == c)

/-- A well-formed payload: each field's bytes followed by one NUL. -/
def joinFields : List (List Nat) → List Nat
  | [] => []
  | f :: rest => f ++ 0 :: joinFields rest

/-- An ASCII payload of exactly `2^31` bytes: long enough that the
`usize → i32` cast in `make_message` flips the length prefix negative. -/
def bigPayload : List Nat :=
  List.replicate 2147483648 97

/-- The frame `make_message` builds for `bigPayload`: the big-endian bytes
of `2^31` (`0x80 0x00 0x00 0x00`) followed by the payload. -/
def bigFrame : List Nat :=
  128 :: 0 :: 0 :: 0 :: bigPayload

/-- An ASCII payload of exactly `2^32` bytes: its low 32 bits are zero, so
the length prefix `make_message` writes is `0x00 0x00 0x00 0x00`. -/
def hugePayload : List Nat :=
  List.replicate 4294967296 97

/-- Every all-ASCII byte list is valid UTF-8. -/
theorem utf8Valid_of_ascii (p : List Nat) : (∀ b ∈ p, b < 128) → utf8Valid p = true := by
  unfold utf8Valid
  induction p with
  | nil => intro _; rfl
  | cons b rest ih =>
    intro h
    have hb : b < 128 := h b (by simp)
    have hrest := ih (fun x hx => h x (by simp [hx]))
    rw [utf8ValidAux, if_pos hb]
    exact hrest

/-- Recomposing the four big-endian bytes of `n` yields the low 32 bits of `n`. -/
theorem be4_beBytes32 (n : Nat) :
    be4 (n / 16777216 % 256) (n / 65536 % 256) (n / 256 % 256) (n % 256) = n % 4294967296 := by
  unfold be4
  omega

/-- Reading back the length prefix of a frame whose payload length is below
`2^31` recovers that length exactly. -/
theorem size_of_small_length (L : Nat) (hL : L < 2147483648) :
    i32AsUsize (be4 (L / 16777216 % 256) (L / 65536 % 256) (L / 256 % 256) (L % 256)) = L := by
  rw [be4_beBytes32]
  unfold i32AsUsize
  rw [if_pos (by omega)]
  omega

/-- Decoding a frame built from an ASCII payload of length below `2^31`,
followed by arbitrary further bytes: the declared length and the payload are
recovered, and the further bytes are the remainder. -/
theorem read_msg_frame (p rest : List Nat) (hp : ∀ b ∈ p, b < 128)
    (hlen : p.length < 2147483648) :
    read_msg (beBytes32 p.length ++ (p ++ rest)) = PanicOr.ok (p.length, p, rest) := by
  simp only [beBytes32, List.cons_append, List.nil_append, read_msg]
  rw [size_of_small_length p.length hlen]
  rw [if_pos (by simp)]
  rw [if_pos]
  · rw [List.take_left, List.drop_left]
  · rw [List.take_left]
    exact utf8Valid_of_ascii p hp

/-- Decoding never panics when the bytes after the 4-byte prefix are all
ASCII, whatever the prefix declares. -/
theorem read_msg_ascii_tail (b0 b1 b2 b3 : Nat) (q : List Nat) (hq : ∀ b ∈ q, b < 128) :
    ∃ r, read_msg (b0 :: b1 :: b2 :: b3 :: q) = PanicOr.ok r := by
  simp only [read_msg]
  by_cases hle : i32AsUsize (be4 b0 b1 b2 b3) ≤ q.length
  · rw [if_pos hle, if_pos]
    · exact ⟨_, rfl⟩
    · exact utf8Valid_of_ascii _ (fun b hb => hq b (List.take_subset _ _ hb))
  · rw [if_neg hle]
    exact ⟨_, rfl⟩

/-- On an all-ASCII payload, `make_message` returns the length-prefixed
frame: the big-endian bytes of the low 32 bits of the length, then the
payload bytes. -/
theorem make_message_ascii (p : List Nat) (hp : ∀ b ∈ p, b < 128) :
    make_message p = PanicOr.ok (beBytes32 p.length ++ p) := by
  have hall : p.all (fun b => b < 128) = true := by
    rw [List.all_eq_true]
    intro x hx
    exact decide_eq_true (hp x hx)
  have hshape : beBytes32 p.length ++ p =
      p.length / 16777216 % 256 :: p.length / 65536 % 256 ::
      p.length / 256 % 256 :: p.length % 256 :: p := by
    simp [beBytes32]
  obtain ⟨r, hr⟩ := read_msg_ascii_tail (p.length / 16777216 % 256) (p.length / 65536 % 256)
    (p.length / 256 % 256) (p.length % 256) p hp
  unfold make_message
  simp only [hall, if_true]
  rw [hshape, hr]

/-- `str::split` always yields at least one piece. -/
theorem splitNul_ne_nil (buf : List Nat) : splitNul buf ≠ [] := by
  cases buf with
  | nil => simp [splitNul]
  | cons b rest =>
    rw [splitNul]
    by_cases hb : b = 0
    · rw [if_pos hb]; simp
    · rw [if_neg hb]
      cases h : splitNul rest <;> simp

/-- `read_fields` never reaches its panic branch: it always returns the
NUL-split pieces minus the last one. -/
theorem read_fields_eq (buf : List Nat) :
    read_fields buf = PanicOr.ok (splitNul buf).dropLast := by
  unfold read_fields
  rw [if_neg (splitNul_ne_nil buf)]

/-- Splitting peels off one NUL-terminated field without a NUL in it. -/
theorem splitNul_field (f t : List Nat) (hf : ∀ b ∈ f, b ≠ 0) :
    splitNul (f ++ 0 :: t) = f :: splitNul t := by
  induction f with
  | nil => simp [splitNul]
  | cons b f' ih =>
    have hb : b ≠ 0 := hf b (by simp)
    have ih' := ih (fun x hx => hf x (by simp [hx]))
    rw [List.cons_append, splitNul, if_neg hb, ih']

/-- Splitting a well-formed payload yields its fields plus one trailing
empty piece. -/
theorem splitNul_joinFields (fs : List (List Nat)) (h : ∀ f ∈ fs, ∀ b ∈ f, b ≠ 0) :
    splitNul (joinFields fs) = fs ++ [[]] := by
  induction fs with
  | nil => simp [joinFields, splitNul]
  | cons f rest ih =>
    rw [joinFields, splitNul_field f _ (h f (by simp)),
      ih (fun g hg => h g (by simp [hg]))]
    rfl

/-- An incoming code matched by no variant is looked up as `none`. -/
theorem incomingFromI32_eq_none (c : Int) (h : ∀ k, incomingCode k ≠ c) :
    incomingFromI32 c = none := by
  refine List.find?_eq_none.mpr ?_
  intro k _
  simpa using h k

/-- An outgoing code matched by no variant is looked up as `none`. -/
theorem outgoingFromI32_eq_none (c : Int) (h : ∀ k, outgoingCode k ≠ c) :
    outgoingFromI32 c = none := by
  refine List.find?_eq_none.mpr ?_
  intro k _
  simpa using h k


/-- Claim C9: `make_message "hello"` produces exactly the 9 bytes
`[0,0,0,5,'h','e','l','l','o']`; `read_msg` of those same 9 bytes returns
declared length 5, payload `"hello"`, and empty remainder; and
`make_field` formats `Bool(true)` as `"1\0"`, `Bool(false)` as `"0\0"`,
and `String("abc")` as `"abc\0"`. -/
theorem claim_C9_concrete :
    make_message [104, 101, 108, 108, 111] = PanicOr.ok [0, 0, 0, 5, 104, 101, 108, 108, 111] ∧
    read_msg [0, 0, 0, 5, 104, 101, 108, 108, 111] =
      PanicOr.ok (5, [104, 101, 108, 108, 111], []) ∧
    make_field (.boolVal true) = [49, 0] ∧
    make_field (.boolVal false) = [48, 0] ∧
    make_field (.stringVal [97, 98, 99]) = [97, 98, 99, 0] := by
  decide

/-- Claim C3, evaluated at the failing input: `make_field` on the `i32`
value `5` yields `"5\0"` as specified, but on the `i64` value `5` — a type
no `downcast_ref` branch of `make_field` handles — it yields the empty
string (no digits, no NUL terminator) instead of `"5\0"`. -/
theorem claim_C3_make_field_i64 :
    make_field (.i32Val 5) = [53, 0] ∧ make_field (.i64Val 5) = [] := by
  decide

/-- Claim C10: `read_fields` is total — for every input it returns without
panicking, because the NUL split always yields at least one piece, so
removing the last piece is in bounds; and `read_fields ""` returns the
empty sequence. -/
theorem claim_C10_read_fields_total :
    (∀ buf : List Nat, (read_fields buf).isOk = true) ∧
    read_fields [] = PanicOr.ok [] := by
  constructor
  · intro buf
    rw [read_fields_eq]
    rfl
  · decide

/-- Claim C6: on a buffer of fewer than 4 bytes `read_msg` consumes
nothing — it returns size 0, empty payload, and the whole buffer as
remainder; and on a buffer whose declared big-endian length exceeds
`buf.len() - 4` it likewise consumes nothing, returning the declared
size (as `i32` cast to `usize`), empty payload, and the whole buffer. -/
theorem claim_C6_incomplete (buf : List Nat) :
    (buf.length < 4 → read_msg buf = PanicOr.ok (0, [], buf)) ∧
    (∀ b0 b1 b2 b3 rest, buf = b0 :: b1 :: b2 :: b3 :: rest →
      rest.length < be4 b0 b1 b2 b3 →
      read_msg buf = PanicOr.ok (i32AsUsize (be4 b0 b1 b2 b3), [], buf)) := by
  constructor
  · intro h
    rcases buf with _ | ⟨a, _ | ⟨b, _ | ⟨c, _ | ⟨d, t⟩⟩⟩⟩
    · rfl
    · rfl
    · rfl
    · rfl
    · simp at h
      omega
  · rintro b0 b1 b2 b3 rest rfl hlt
    have hge : be4 b0 b1 b2 b3 ≤ i32AsUsize (be4 b0 b1 b2 b3) := by
      unfold i32AsUsize
      split <;> omega
    simp only [read_msg]
    rw [if_neg (by omega)]

/-- Witness for claim C6 at two concrete buffers: a 2-byte buffer, and a
5-byte buffer declaring a 5-byte payload of which only 1 byte arrived. -/
theorem claim_C6_witness :
    ([7, 7] : List Nat).length < 4 ∧
    read_msg [7, 7] = PanicOr.ok (0, [], [7, 7]) ∧
    ([65] : List Nat).length < be4 0 0 0 5 ∧
    read_msg [0, 0, 0, 5, 65] = PanicOr.ok (i32AsUsize (be4 0 0 0 5), [], [0, 0, 0, 5, 65]) := by
  refine ⟨by decide, (claim_C6_incomplete [7, 7]).1 (by decide), by decide, ?_⟩
  exact (claim_C6_incomplete [0, 0, 0, 5, 65]).2 0 0 0 5 [65] rfl (by decide)

/-- Claim C2 counterexample: tokenizing the payload `"A\0B"`, which does
not end in NUL, neither fails nor is left undefined — `read_fields`
succeeds with `["A"]`, silently dropping the real, non-empty final field
`"B"`. -/
theorem claim_C2_counterexample :
    read_fields [65, 0, 66] = PanicOr.ok [[65]] := by
  decide

/-- Claim C2 (amended): `read_fields` splits on NUL and discards the final
split piece. On a well-formed payload — every field NUL-terminated and
NUL-free — the discarded piece is the single trailing empty token and the
fields come back in order, so `read_fields "A\0B\0C\0" = ["A","B","C"]`;
but on a payload that does not end in NUL, `read_fields` still succeeds
and silently drops the non-empty final segment, as in
`read_fields "A\0B" = ["A"]`. -/
theorem claim_C2_tokenize_amended :
    (∀ fs : List (List Nat), (∀ f ∈ fs, ∀ b ∈ f, b ≠ 0) →
      read_fields (joinFields fs) = PanicOr.ok fs) ∧
    read_fields [65, 0, 66, 0, 67, 0] = PanicOr.ok [[65], [66], [67]] ∧
    read_fields [65, 0, 66] = PanicOr.ok [[65]] := by
  refine ⟨?_, by decide, by decide⟩
  intro fs h
  rw [read_fields_eq, splitNul_joinFields fs h]
  simp

/-- Witness for claim C2 at the concrete field sequence `["A", "B", "C"]`. -/
theorem claim_C2_witness :
    (∀ f ∈ ([[65], [66], [67]] : List (List Nat)), ∀ b ∈ f, b ≠ 0) ∧
    read_fields (joinFields [[65], [66], [67]]) = PanicOr.ok [[65], [66], [67]] := by
  exact ⟨by decide, claim_C2_tokenize_amended.1 [[65], [66], [67]] (by decide)⟩

/-- Claim C5 counterexample: on the fully-arrived frame `[0,0,0,1,0x80]`,
whose 1-byte payload is not valid UTF-8, `read_msg` panics — the model of
the `String::from_utf8(..).unwrap()` abort — instead of returning a
`MalformedFrame` error value to the caller. -/
theorem claim_C5_counterexample :
    read_msg [0, 0, 0, 1, 128] = PanicOr.panicked := by
  decide

/-- Claim C5 (amended): whenever a frame's payload has fully arrived but
its bytes are not valid UTF-8, `read_msg` panics (it `unwrap`s the
`String::from_utf8` result) rather than surfacing an error value. -/
theorem claim_C5_invalid_utf8_amended (b0 b1 b2 b3 : Nat) (rest : List Nat)
    (hlen : i32AsUsize (be4 b0 b1 b2 b3) ≤ rest.length)
    (hbad : utf8Valid (rest.take (i32AsUsize (be4 b0 b1 b2 b3))) = false) :
    read_msg (b0 :: b1 :: b2 :: b3 :: rest) = PanicOr.panicked := by
  simp only [read_msg]
  rw [if_pos hlen, if_neg (by simp [hbad])]

/-- Witness for claim C5 at the concrete frame `[0,0,0,1,0x80]`. -/
theorem claim_C5_witness :
    i32AsUsize (be4 0 0 0 1) ≤ ([128] : List Nat).length ∧
    utf8Valid (([128] : List Nat).take (i32AsUsize (be4 0 0 0 1))) = false ∧
    read_msg [0, 0, 0, 1, 128] = PanicOr.panicked := by
  exact ⟨by decide, by decide, claim_C5_invalid_utf8_amended 0 0 0 1 [128] (by decide) (by decide)⟩

/-- Claim C1 (amended): for every ASCII payload `p` with fewer than `2^31`
bytes, `make_message p` succeeds with the length-prefixed frame, and
`read_msg` of that frame returns payload `p` and an empty remainder. -/
theorem claim_C1_round_trip_amended (p : List Nat) (hp : ∀ b ∈ p, b < 128)
    (hlen : p.length < 2147483648) :
    make_message p = PanicOr.ok (beBytes32 p.length ++ p) ∧
    read_msg (beBytes32 p.length ++ p) = PanicOr.ok (p.length, p, []) := by
  refine ⟨make_message_ascii p hp, ?_⟩
  simpa using read_msg_frame p [] hp hlen

/-- Witness for claim C1 at the concrete ASCII payload `"hi"`. -/
theorem claim_C1_witness :
    (∀ b ∈ ([104, 105] : List Nat), b < 128) ∧
    ([104, 105] : List Nat).length < 2147483648 ∧
    make_message [104, 105] = PanicOr.ok [0, 0, 0, 2, 104, 105] ∧
    read_msg [0, 0, 0, 2, 104, 105] = PanicOr.ok (2, [104, 105], []) := by
  have h := claim_C1_round_trip_amended [104, 105] (by decide) (by decide)
  refine ⟨by decide, by decide, ?_, ?_⟩
  · rw [h.1]
    decide
  · have h2 := h.2
    rw [show beBytes32 ([104, 105] : List Nat).length = [0, 0, 0, 2] from by decide] at h2
    simpa using h2

/-- Claim C1 counterexample: for the `2^31`-byte ASCII payload, the
`usize → i32` cast in `make_message` makes the length prefix read back as
a negative `i32`, which `read_msg` sign-extends to `2^64 - 2^31`; decoding
the encoded frame therefore returns the Incomplete shape — empty payload
and the whole frame as the remainder — not the payload with an empty
remainder, refuting the round trip as stated for this ASCII payload. -/
theorem claim_C1_counterexample :
    make_message bigPayload = PanicOr.ok bigFrame ∧
    read_msg bigFrame = PanicOr.ok (18446744071562067968, [], bigFrame) ∧
    bigPayload.length = 2147483648 := by
  have hascii : ∀ b ∈ bigPayload, b < 128 := by
    intro b hb
    unfold bigPayload at hb
    rw [List.mem_replicate] at hb
    omega
  have hlen : bigPayload.length = 2147483648 := by
    unfold bigPayload
    rw [List.length_replicate]
  have hsize : i32AsUsize (be4 128 0 0 0) = 18446744071562067968 := by
    norm_num [i32AsUsize, be4]
  refine ⟨?_, ?_, hlen⟩
  · rw [make_message_ascii bigPayload hascii, hlen]
    rw [show beBytes32 2147483648 = [128, 0, 0, 0] from by norm_num [beBytes32]]
    unfold bigFrame
    rw [List.cons_append, List.cons_append, List.cons_append, List.cons_append,
      List.nil_append]
  · have hnot : ¬ (i32AsUsize (be4 128 0 0 0) ≤ bigPayload.length) := by
      rw [hsize, hlen]
      omega
    unfold bigFrame
    simp only [read_msg]
    rw [if_neg hnot, hsize]

/-- Claim C7 (amended): for ASCII payloads `p1`, `p2`, each shorter than
`2^31` bytes, decoding the concatenation of their two frames yields
payload `p1` with the second frame intact as remainder, and decoding that
remainder yields `p2` with an empty remainder. -/
theorem claim_C7_pipelining_amended (p1 p2 : List Nat)
    (h1 : ∀ b ∈ p1, b < 128) (h2 : ∀ b ∈ p2, b < 128)
    (hl1 : p1.length < 2147483648) (hl2 : p2.length < 2147483648) :
    make_message p1 = PanicOr.ok (beBytes32 p1.length ++ p1) ∧
    make_message p2 = PanicOr.ok (beBytes32 p2.length ++ p2) ∧
    read_msg ((beBytes32 p1.length ++ p1) ++ (beBytes32 p2.length ++ p2)) =
      PanicOr.ok (p1.length, p1, beBytes32 p2.length ++ p2) ∧
    read_msg (beBytes32 p2.length ++ p2) = PanicOr.ok (p2.length, p2, []) := by
  refine ⟨make_message_ascii p1 h1, make_message_ascii p2 h2, ?_, ?_⟩
  · simpa [List.append_assoc] using
      read_msg_frame p1 (beBytes32 p2.length ++ p2) h1 hl1
  · simpa using read_msg_frame p2 [] h2 hl2

/-- Witness for claim C7 at the concrete ASCII payloads `"h"` and `"i"`. -/
theorem claim_C7_witness :
    (∀ b ∈ ([104] : List Nat), b < 128) ∧ (∀ b ∈ ([105] : List Nat), b < 128) ∧
    read_msg [0, 0, 0, 1, 104, 0, 0, 0, 1, 105] = PanicOr.ok (1, [104], [0, 0, 0, 1, 105]) ∧
    read_msg [0, 0, 0, 1, 105] = PanicOr.ok (1, [105], []) := by
  have h := claim_C7_pipelining_amended [104] [105] (by decide) (by decide) (by decide) (by decide)
  have e1 : beBytes32 ([104] : List Nat).length = [0, 0, 0, 1] := by decide
  have e2 : beBytes32 ([105] : List Nat).length = [0, 0, 0, 1] := by decide
  refine ⟨by decide, by decide, ?_, ?_⟩
  · have h3 := h.2.2.1
    rw [e1, e2] at h3
    simpa using h3
  · have h4 := h.2.2.2
    rw [e2] at h4
    simpa using h4

/-- Claim C7 counterexample: with `p1` the `2^31`-byte ASCII payload and
`p2 = "a"`, both `encode(p1)` and `encode(p2)` succeed, yet decoding
`encode(p1) + encode(p2)` does not return `Complete{payload: p1,
remainder: encode(p2)}` — the flipped length prefix makes `read_msg`
return the Incomplete shape: empty payload and the whole concatenation as
remainder. -/
theorem claim_C7_counterexample :
    make_message bigPayload = PanicOr.ok bigFrame ∧
    make_message [97] = PanicOr.ok [0, 0, 0, 1, 97] ∧
    read_msg (bigFrame ++ [0, 0, 0, 1, 97]) =
      PanicOr.ok (18446744071562067968, [], bigFrame ++ [0, 0, 0, 1, 97]) ∧
    bigPayload.length = 2147483648 := by
  have hascii : ∀ b ∈ bigPayload, b < 128 := by
    intro b hb
    unfold bigPayload at hb
    rw [List.mem_replicate] at hb
    omega
  have hlen : bigPayload.length = 2147483648 := by
    unfold bigPayload
    rw [List.length_replicate]
  have hsize : i32AsUsize (be4 128 0 0 0) = 18446744071562067968 := by
    norm_num [i32AsUsize, be4]
  refine ⟨?_, ?_, ?_, hlen⟩
  · rw [make_message_ascii bigPayload hascii, hlen]
    rw [show beBytes32 2147483648 = [128, 0, 0, 0] from by norm_num [beBytes32]]
    unfold bigFrame
    rw [List.cons_append, List.cons_append, List.cons_append, List.cons_append,
      List.nil_append]
  · rw [make_message_ascii [97] (by decide)]
    decide
  · have hnot : ¬ (i32AsUsize (be4 128 0 0 0) ≤ (bigPayload ++ [0, 0, 0, 1, 97]).length) := by
      rw [hsize, List.length_append, hlen]
      norm_num
    unfold bigFrame
    rw [List.cons_append, List.cons_append, List.cons_append, List.cons_append]
    simp only [read_msg]
    rw [if_neg hnot, hsize]

/-- Claim C4 (amended): on any payload containing a byte outside the 7-bit
ASCII range, `make_message` panics (the `as_ascii_str().unwrap()` abort) —
its return type `Vec<u8>` has no error channel, so no `NonAsciiPayload`
error value is returned to the caller; on an all-ASCII payload it succeeds
and prepends the big-endian bytes of the low 32 bits of the payload
length, whose value equals the payload length whenever that length is
below `2^32`. -/
theorem claim_C4_encode_amended (p : List Nat) :
    ((∃ b ∈ p, 128 ≤ b) → make_message p = PanicOr.panicked) ∧
    ((∀ b ∈ p, b < 128) →
      make_message p = PanicOr.ok (beBytes32 p.length ++ p) ∧
      (p.length < 4294967296 →
        be4 (p.length / 16777216 % 256) (p.length / 65536 % 256)
          (p.length / 256 % 256) (p.length % 256) = p.length)) := by
  constructor
  · rintro ⟨b, hb, hb128⟩
    have hall : ¬ (p.all (fun b => b < 128) = true) := by
      rw [List.all_eq_true]
      intro hall
      have hlt := of_decide_eq_true (hall b hb)
      omega
    unfold make_message
    rw [if_neg hall]
  · intro hp
    refine ⟨make_message_ascii p hp, fun hlt => ?_⟩
    rw [be4_beBytes32]
    omega

/-- Witness for claim C4 at the non-ASCII payload `[0xC8]` and the ASCII
payload `"h"`. -/
theorem claim_C4_witness :
    (∃ b ∈ ([200] : List Nat), 128 ≤ b) ∧
    make_message [200] = PanicOr.panicked ∧
    (∀ b ∈ ([104] : List Nat), b < 128) ∧
    make_message [104] = PanicOr.ok [0, 0, 0, 1, 104] := by
  have h200 := (claim_C4_encode_amended [200]).1 (by decide)
  have h104 := ((claim_C4_encode_amended [104]).2 (by decide)).1
  refine ⟨by decide, h200, by decide, ?_⟩
  rw [h104]
  decide

/-- Claim C4 counterexample: at the non-ASCII input `[0xC8]`,
`make_message` panics — no value, and in particular no error value, is
returned to the caller; and at the `2^32`-byte ASCII payload it succeeds
with prefix bytes `[0,0,0,0]`, whose big-endian value `0` is not the
payload's byte length `2^32`. -/
theorem claim_C4_counterexample :
    make_message [200] = PanicOr.panicked ∧
    make_message hugePayload = PanicOr.ok (0 :: 0 :: 0 :: 0 :: hugePayload) ∧
    hugePayload.length = 4294967296 ∧
    be4 0 0 0 0 = 0 := by
  have hascii : ∀ b ∈ hugePayload, b < 128 := by
    intro b hb
    unfold hugePayload at hb
    rw [List.mem_replicate] at hb
    omega
  have hlen : hugePayload.length = 4294967296 := by
    unfold hugePayload
    rw [List.length_replicate]
  refine ⟨by decide, ?_, hlen, by decide⟩
  rw [make_message_ascii hugePayload hascii, hlen]
  rw [show beBytes32 4294967296 = [0, 0, 0, 0] from by norm_num [beBytes32]]
  rw [List.cons_append, List.cons_append, List.cons_append, List.cons_append,
    List.nil_append]

/-- Claim C8: for every defined incoming message kind, looking up its
numeric code via the `FromPrimitive` derive returns `Some` of that same
kind, and likewise for every outgoing kind; and every code carried by no
variant of a direction's table looks up as `None` — the lookup is a total
function, never a crash. -/
theorem claim_C8_registry :
    (∀ k, incomingFromI32 (incomingCode k) = some k) ∧
    (∀ k, outgoingFromI32 (outgoingCode k) = some k) ∧
    (∀ c : Int, (∀ k, incomingCode k ≠ c) → incomingFromI32 c = none) ∧
    (∀ c : Int, (∀ k, outgoingCode k ≠ c) → outgoingFromI32 c = none) :=
  ⟨by decide, by decide, incomingFromI32_eq_none, outgoingFromI32_eq_none⟩

/-- Witness for claim C8: the round trip at `TickPrice` and `StartApi`,
and the absent codes 22 (incoming) and 26 (outgoing) looking up as
`None`. -/
theorem claim_C8_witness :
    incomingFromI32 (incomingCode IncomingMessageIds.TickPrice) =
      some IncomingMessageIds.TickPrice ∧
    outgoingFromI32 (outgoingCode OutgoingMessageIds.StartApi) =
      some OutgoingMessageIds.StartApi ∧
    ((∀ k, incomingCode k ≠ 22) ∧ incomingFromI32 22 = none) ∧
    ((∀ k, outgoingCode k ≠ 26) ∧ outgoingFromI32 26 = none) := by
  refine ⟨claim_C8_registry.1 IncomingMessageIds.TickPrice,
    claim_C8_registry.2.1 OutgoingMessageIds.StartApi,
    ⟨by decide, claim_C8_registry.2.2.1 22 (by decide)⟩,
    ⟨by decide, claim_C8_registry.2.2.2 26 (by decide)⟩⟩
